import Mathlib

/-!
Shallow embedding of `dummyserial` (src/dummyserial/classes.py), the mock
serial port: open/close state, a response table consulted by `write`, a
pending-output buffer drained by `read`, and the `inWaiting` pending count.
Machine effects are made explicit: exceptions become an error sum, the
`time.sleep(self.timeout)` call in `read` becomes an explicit `clock`
increment on the state, and Python's dynamic values (`bytes`, `str`,
callables) become tagged variants.
-/

namespace DummySerial

/-- Modelled from the spec: `dummyserial/constants.py` is not in the sources,
so the values of `NO_DATA_PRESENT` and `DEFAULT_RESPONSE` are unknown. Per the
spec, both denote the single "no data present" sentinel, a distinguished
marker distinct from the empty byte string, modelled as the tagged variant
`noData` (spec §9: model it as `NoData | Bytes(seq)`). `_waiting_data` can
also hold a callable taken verbatim from the response table, hence `func`.
Bytes are `List Nat`. -/
inductive Pending where
  | noData : Pending
  | bytes (w : List Nat) : Pending
  | func (f : List Nat → List Nat) : Pending

/-- A value of the `responses` dict: a static byte string or a callable. -/
inductive Response where
  | rbytes (r : List Nat) : Response
  | rfunc (f : List Nat → List Nat) : Response

/-- A key of the `responses` dict: Python `bytes` or `str` (in Python 3 a
`bytes` key and a `str` key are never equal, so lookup never crosses). -/
inductive Key where
  | kbytes (b : List Nat) : Key
  | kstr (t : String) : Key
deriving DecidableEq

/-- The dynamic type of the `data` argument of `Serial.write`:
`bytes`, `bytearray`, or `str`. -/
inductive WriteData where
  | bytesD (b : List Nat) : WriteData
  | byteArr (b : List Nat) : WriteData
  | strD (t : String) : WriteData

/-- Modelled from the spec: `dummyserial/exceptions.py` is not in the sources.
The error taxonomy: `alreadyOpen` is the `SerialException('Port is already
open.')` raised by `open`, `portNotOpen` is pyserial's `PortNotOpenError`,
`ioError` is `dummyserial.exceptions.DSIOError` (the spec's
`InvalidArgumentError`), and `typeError` is Python's `TypeError` raised when
`len()` is applied to a non-sized object such as a callable. -/
inductive DSErr where
  | alreadyOpen : DSErr
  | portNotOpen : DSErr
  | ioError : DSErr
  | typeError : DSErr
deriving DecidableEq

/-- The state of a `Serial` instance: `_isOpen`, `_waiting_data`, `port`,
`initial_port_name`, `responses`, `timeout`, `baudrate`, plus an explicit
`clock` accumulating the seconds slept by `time.sleep` calls. -/
structure SerialSt where
  isOpen : Bool
  waiting : Pending
  port : Option String
  initialPortName : String
  responses : List (Key × Response)
  timeout : Nat
  baudrate : Nat
  clock : Nat

/-- Embeds `Serial.__init__`: the port starts open with the sentinel staged as
`_waiting_data`, `port` and `initial_port_name` set to the given name. -/
def mkSerial (p : String) (rs : List (Key × Response)) (t : Nat) (baud : Nat) :
    SerialSt :=
  { isOpen := true, waiting := Pending.noData, port := some p,
    initialPortName := p, responses := rs, timeout := t, baudrate := baud,
    clock := 0 }

/-- Exact-match dictionary lookup (`data_in in self.responses` /
`self.responses[data_in]`); keys are unique, so first match suffices. -/
def lookupResponse : List (Key × Response) → Key → Option Response
  | [], _ => none
  | (k, r) :: rest, k' => if k = k' then some r else lookupResponse rest k'

/-- Embeds `if isinstance(data, bytearray): data = bytes(data)` — the only input
normalization `Serial.write` performs. -/
def normalize : WriteData → WriteData
  | WriteData.byteArr b => WriteData.bytesD b
  | d => d

/-- The dictionary key a (normalized) payload denotes. -/
def toKey : WriteData → Key
  | WriteData.bytesD b => Key.kbytes b
  | WriteData.byteArr b => Key.kbytes b
  | WriteData.strD t => Key.kstr t

/-- Embeds `Serial._check_response`: the value found in `responses` is staged
verbatim (a callable is NOT invoked); an absent key stages the sentinel. -/
def checkResponse (rs : List (Key × Response)) (k : Key) : Pending :=
  match lookupResponse rs k with
  | none => Pending.noData
  | some (Response.rbytes r) => Pending.bytes r
  | some (Response.rfunc f) => Pending.func f

/-- Embeds `Serial.open`: raises if already open, else re-opens and restores the
initial port name. -/
def openPort (s : SerialSt) : Except DSErr Unit × SerialSt :=
  if s.isOpen then (Except.error DSErr.alreadyOpen, s)
  else (Except.ok (),
    { s with isOpen := true, port := some s.initialPortName })

/-- Embeds `Serial.close`: clears `_isOpen` and sets `port` to `None`;
never fails, never touches `_waiting_data`. -/
def closePort (s : SerialSt) : SerialSt :=
  { s with isOpen := false, port := none }

/-- Embeds `Serial.write`: normalizes `bytearray` to `bytes`, raises
`PortNotOpenError` when closed, else stages `_check_response(data)`. -/
def write (d : WriteData) (s : SerialSt) : Except DSErr Unit × SerialSt :=
  if s.isOpen then
    (Except.ok (),
      { s with waiting := checkResponse s.responses (toKey (normalize d)) })
  else (Except.error DSErr.portNotOpen, s)

/-- Embeds `Serial.read`: raises `PortNotOpenError` when closed, then `DSIOError`
on negative size; then, in source order: if `_waiting_data` equals the
sentinel return it unchanged; a callable has no `len()` (TypeError); else
compare `size` with the available length — a strict prefix is taken and the
remainder kept, an exact read drains to the sentinel, an over-sized read
sleeps for `timeout` (modelled as `clock := clock + timeout`), returns
everything and drains to the sentinel. -/
def read (size : Int) (s : SerialSt) : Except DSErr Pending × SerialSt :=
  if s.isOpen = false then (Except.error DSErr.portNotOpen, s)
  else if size < 0 then (Except.error DSErr.ioError, s)
  else
    match s.waiting with
    | Pending.noData => (Except.ok Pending.noData, s)
    | Pending.func _ => (Except.error DSErr.typeError, s)
    | Pending.bytes w =>
      if size < (w.length : Int) then
        (Except.ok (Pending.bytes (w.take size.toNat)),
          { s with waiting := Pending.bytes (w.drop size.toNat) })
      else if size = (w.length : Int) then
        (Except.ok (Pending.bytes w), { s with waiting := Pending.noData })
      else
        (Except.ok (Pending.bytes w),
          { s with waiting := Pending.noData,
                   clock := s.clock + s.timeout })

/-- Embeds `Serial.inWaiting`: `len(self._waiting_data)`. The sentinel has length 0
(the spec's drain scenario ends with `pendingCount() → 0`); `len()` of a
callable raises, hence `none`. -/
def inWaiting (s : SerialSt) : Option Nat :=
  match s.waiting with
  | Pending.noData => some 0
  | Pending.bytes w => some w.length
  | Pending.func _ => none

/-- Embeds the `in_waiting` property: `return self.inWaiting()`. -/
def in_waiting (s : SerialSt) : Option Nat :=
  inWaiting s

/-- The byte content of a read result, for concatenating drained outputs. -/
def bytesOf : Pending → List Nat
  | Pending.bytes w => w
  | _ => []

/-- Run a sequence of `read` calls with the given (non-negative) sizes,
concatenating the byte outputs in call order; stops at the first error. -/
def readAll : List Nat → SerialSt → Except DSErr (List Nat) × SerialSt
  | [], s => (Except.ok [], s)
  | n :: rest, s =>
    match read (n : Int) s with
    | (Except.ok out, s1) =>
      match readAll rest s1 with
      | (Except.ok outs, s2) => (Except.ok (bytesOf out ++ outs), s2)
      | (Except.error e, s2) => (Except.error e, s2)
    | (Except.error e, s1) => (Except.error e, s1)

/-! Helper lemmas on single reads and read sequences. -/

/-- A read of fewer bytes than are pending takes the corresponding strict
initial segment and keeps the rest. -/
theorem read_lt (s : SerialSt) (w : List Nat) (n : Nat) (hO : s.isOpen = true)
    (hW : s.waiting = Pending.bytes w) (h : n < w.length) :
    read (n : Int) s =
      (Except.ok (Pending.bytes (w.take n)),
        { s with waiting := Pending.bytes (w.drop n) }) := by
  unfold read
  rw [hO, hW]
  have h0 : ¬ ((n : Int) < 0) := by omega
  have h1 : (n : Int) < (w.length : Int) := by omega
  simp [h0, h1]

/-- A read of exactly the pending length returns everything and stages the
sentinel. -/
theorem read_eq (s : SerialSt) (w : List Nat) (n : Nat) (hO : s.isOpen = true)
    (hW : s.waiting = Pending.bytes w) (h : n = w.length) :
    read (n : Int) s =
      (Except.ok (Pending.bytes w), { s with waiting := Pending.noData }) := by
  unfold read
  rw [hO, hW]
  have h0 : ¬ ((n : Int) < 0) := by omega
  have h1 : ¬ ((n : Int) < (w.length : Int)) := by omega
  have h2 : (n : Int) = (w.length : Int) := by omega
  simp [h0, h1, h2]

/-- An over-sized read sleeps for `timeout`, returns everything and stages
the sentinel. -/
theorem read_gt (s : SerialSt) (w : List Nat) (n : Nat) (hO : s.isOpen = true)
    (hW : s.waiting = Pending.bytes w) (h : w.length < n) :
    read (n : Int) s =
      (Except.ok (Pending.bytes w),
        { s with waiting := Pending.noData,
                 clock := s.clock + s.timeout }) := by
  unfold read
  rw [hO, hW]
  have h0 : ¬ ((n : Int) < 0) := by omega
  have h1 : ¬ ((n : Int) < (w.length : Int)) := by omega
  have h2 : ¬ ((n : Int) = (w.length : Int)) := by omega
  simp [h0, h1, h2]

/-- A read on the sentinel returns it and leaves the state untouched. -/
theorem read_noData (s : SerialSt) (n : Nat) (hO : s.isOpen = true)
    (hW : s.waiting = Pending.noData) :
    read (n : Int) s = (Except.ok Pending.noData, s) := by
  unfold read
  rw [hO, hW]
  have h0 : ¬ ((n : Int) < 0) := by omega
  simp [h0]

/-- A read never changes `_isOpen` or `responses`. -/
theorem read_fields (z : Int) (s : SerialSt) :
    (read z s).2.isOpen = s.isOpen ∧ (read z s).2.responses = s.responses := by
  unfold read
  split
  · exact ⟨rfl, rfl⟩
  · split
    · exact ⟨rfl, rfl⟩
    · split
      · exact ⟨rfl, rfl⟩
      · exact ⟨rfl, rfl⟩
      · split
        · exact ⟨rfl, rfl⟩
        · split
          · exact ⟨rfl, rfl⟩
          · exact ⟨rfl, rfl⟩

/-- A sequence of reads never changes `_isOpen` or `responses`. -/
theorem readAll_fields : ∀ (sizes : List Nat) (s : SerialSt),
    (readAll sizes s).2.isOpen = s.isOpen ∧
    (readAll sizes s).2.responses = s.responses
  | [], s => ⟨rfl, rfl⟩
  | n :: rest, s => by
    have h1 := read_fields (n : Int) s
    unfold readAll
    rcases hr : read (n : Int) s with ⟨r, s1⟩
    rw [hr] at h1
    cases r with
    | ok out =>
      have h2 := readAll_fields rest s1
      rcases ha : readAll rest s1 with ⟨r2, s2⟩
      rw [ha] at h2
      cases r2 <;> simp_all
    | error e => simp_all

/-- Reads on a port whose pending output is the sentinel return nothing and
leave the state fixed, whatever the sizes. -/
theorem readAll_noData : ∀ (sizes : List Nat) (s : SerialSt),
    s.isOpen = true → s.waiting = Pending.noData →
    readAll sizes s = (Except.ok [], s)
  | [], _, _, _ => rfl
  | n :: rest, s, hO, hW => by
    unfold readAll
    simp only [read_noData s n hO hW, readAll_noData rest s hO hW, bytesOf,
      List.nil_append]

/-- Reads whose sizes sum to the pending length drain exactly the pending
bytes, concatenated in call order. -/
theorem readAll_sum_drain : ∀ (sizes : List Nat) (s : SerialSt) (w : List Nat),
    s.isOpen = true → s.waiting = Pending.bytes w → sizes.sum = w.length →
    ∃ s', readAll sizes s = (Except.ok w, s')
  | [], s, w, _, _, hsum => by
    have hw : w = [] := List.eq_nil_of_length_eq_zero (by simpa using hsum.symm)
    exact ⟨s, by simp [readAll, hw]⟩
  | n :: rest, s, w, hO, hW, hsum => by
    have hsum' : n + rest.sum = w.length := by simpa using hsum
    rcases Nat.lt_or_ge n w.length with hlt | hge
    · have hr := read_lt s w n hO hW hlt
      rcases readAll_sum_drain rest
          { s with waiting := Pending.bytes (w.drop n) } (w.drop n)
          hO rfl (by simp only [List.length_drop]; omega) with ⟨s', hs'⟩
      refine ⟨s', ?_⟩
      unfold readAll
      simp only [hr, hs', bytesOf, List.take_append_drop]
    · have heq : n = w.length := by omega
      have hr := read_eq s w n hO hW heq
      have hrest := readAll_noData rest { s with waiting := Pending.noData }
        hO rfl
      refine ⟨{ s with waiting := Pending.noData }, ?_⟩
      unfold readAll
      simp only [hr, hrest, bytesOf, List.append_nil]

/-! Concrete instances used by witnesses and counterexamples. -/

/-- A port configured with the spec scenario responses, b"PING" mapped to
b"PONG". -/
def pingPort : SerialSt :=
  mkSerial "COM1"
    [(Key.kbytes [80, 73, 78, 71], Response.rbytes [80, 79, 78, 71])] 2 9600

/-- The scenario port right after write(b"PING"): b"PONG" is pending. -/
def pongStaged : SerialSt :=
  (write (WriteData.bytesD [80, 73, 78, 71]) pingPort).2

/-- Claim C1: on an open port whose pending output is the non-sentinel byte
sequence `w`, `read n` with `n < len w` returns exactly the first `n` bytes
and retains the remaining suffix as pending output; `read (len w)` returns
all of `w` and leaves the pending buffer empty (pending count 0); hence any
sequence of reads whose sizes sum to `len w` returns, concatenated in call
order, exactly `w`. -/
theorem read_partial_exact_sum (s : SerialSt) (w : List Nat) (n : Nat)
    (hO : s.isOpen = true) (hW : s.waiting = Pending.bytes w) :
    (n < w.length →
      read (n : Int) s =
        (Except.ok (Pending.bytes (w.take n)),
          { s with waiting := Pending.bytes (w.drop n) })) ∧
    (n = w.length →
      read (n : Int) s =
        (Except.ok (Pending.bytes w), { s with waiting := Pending.noData }) ∧
      inWaiting (read (n : Int) s).2 = some 0) ∧
    (∀ sizes : List Nat, sizes.sum = w.length →
      (readAll sizes s).1 = Except.ok w) := by
  refine ⟨fun h => read_lt s w n hO hW h, fun h => ?_, fun sizes h => ?_⟩
  · have he := read_eq s w n hO hW h
    exact ⟨he, by rw [he]; rfl⟩
  · rcases readAll_sum_drain sizes s w hO hW h with ⟨s', hs'⟩
    rw [hs']

/-- Claim C1 witness: the spec scenario — responses maps b"PING" to b"PONG";
after write(b"PING"), read(2) returns b"PO" keeping b"NG" pending, and two
reads of 2 bytes concatenate to b"PONG". -/
theorem read_partial_exact_sum_witness :
    read ((2 : Nat) : Int) pongStaged =
      (Except.ok (Pending.bytes [80, 79]),
        { pongStaged with waiting := Pending.bytes [78, 71] }) ∧
    (readAll [2, 2] pongStaged).1 = Except.ok [80, 79, 78, 71] :=
  ⟨(read_partial_exact_sum pongStaged [80, 79, 78, 71] 2 rfl rfl).1
      (by decide),
   (read_partial_exact_sum pongStaged [80, 79, 78, 71] 2 rfl rfl).2.2 [2, 2]
      (by decide)⟩

/-- Claim C3: writing a payload absent from the response table on an open
port stages the no-data sentinel — a value distinct from the empty byte
string — and every subsequent read, of any size, returns that sentinel
unchanged and leaves it staged as pending output. -/
theorem write_absent_stages_sentinel (s : SerialSt) (d : WriteData)
    (hO : s.isOpen = true)
    (habs : lookupResponse s.responses (toKey (normalize d)) = none) :
    (write d s).1 = Except.ok () ∧
    (write d s).2.waiting = Pending.noData ∧
    (∀ n : Nat, read (n : Int) (write d s).2 =
      (Except.ok Pending.noData, (write d s).2)) ∧
    Pending.noData ≠ Pending.bytes [] := by
  have hcheck : checkResponse s.responses (toKey (normalize d)) =
      Pending.noData := by
    unfold checkResponse
    rw [habs]
  refine ⟨?_, ?_, fun n => ?_, fun h => Pending.noConfusion h⟩
  · simp [write, hO]
  · simp [write, hO, hcheck]
  · have hO2 : (write d s).2.isOpen = true := by simp [write, hO]
    have hW2 : (write d s).2.waiting = Pending.noData := by
      simp [write, hO, hcheck]
    exact read_noData _ n hO2 hW2

/-- Claim C3 witness: a port with an empty response table; write(b"\x01")
stages the sentinel and read(3) returns it unchanged. -/
theorem write_absent_stages_sentinel_witness :
    (write (WriteData.bytesD [1]) (mkSerial "p" [] 2 9600)).2.waiting =
      Pending.noData ∧
    read ((3 : Nat) : Int)
        (write (WriteData.bytesD [1]) (mkSerial "p" [] 2 9600)).2 =
      (Except.ok Pending.noData,
        (write (WriteData.bytesD [1]) (mkSerial "p" [] 2 9600)).2) :=
  ⟨(write_absent_stages_sentinel (mkSerial "p" [] 2 9600)
      (WriteData.bytesD [1]) rfl rfl).2.1,
   (write_absent_stages_sentinel (mkSerial "p" [] 2 9600)
      (WriteData.bytesD [1]) rfl rfl).2.2.1 3⟩

/-- Claim C6 counterexample: on a closed port, `read(-1)` raises
`PortClosedError`, not `InvalidArgumentError` as the claim demands for every
port state — the open check precedes the size check. -/
theorem read_neg_closed_not_ioError :
    read (-1) (closePort (mkSerial "p" [] 2 9600)) =
      (Except.error DSErr.portNotOpen, closePort (mkSerial "p" [] 2 9600)) ∧
    DSErr.portNotOpen ≠ DSErr.ioError :=
  ⟨rfl, by decide⟩

/-- Claim C6 (amended): on an open port every negative-size read raises
`InvalidArgumentError`; on a closed port the `PortClosedError` check fires
first, whatever the size. -/
theorem read_neg_amended (s : SerialSt) (z : Int) :
    (s.isOpen = true → z < 0 →
      read z s = (Except.error DSErr.ioError, s)) ∧
    (s.isOpen = false →
      read z s = (Except.error DSErr.portNotOpen, s)) := by
  constructor
  · intro hO hz
    unfold read
    rw [hO]
    simp [hz]
  · intro hC
    unfold read
    rw [hC]
    simp

/-- Claim C6 witness: `read(-1)` on a freshly constructed open port raises
`InvalidArgumentError`; `read(1)` on a closed port raises `PortClosedError`. -/
theorem read_neg_amended_witness :
    read (-1) (mkSerial "p" [] 2 9600) =
      (Except.error DSErr.ioError, mkSerial "p" [] 2 9600) ∧
    read 1 (closePort (mkSerial "p" [] 2 9600)) =
      (Except.error DSErr.portNotOpen, closePort (mkSerial "p" [] 2 9600)) :=
  ⟨(read_neg_amended (mkSerial "p" [] 2 9600) (-1)).1 rfl (by decide),
   (read_neg_amended (closePort (mkSerial "p" [] 2 9600)) 1).2 rfl⟩

/-- Claim C7: every failing operation leaves the state unchanged — `open` on
an already-open port fails with `AlreadyOpenError` and returns all fields
unmodified, and `write`/`read` on a closed port fail with `PortClosedError`
before mutating anything, so `isOpen` stays false and the pending output is
never half-updated. -/
theorem errors_leave_state (s : SerialSt) (d : WriteData) (z : Int) :
    (s.isOpen = true →
      openPort s = (Except.error DSErr.alreadyOpen, s)) ∧
    (s.isOpen = false →
      write d s = (Except.error DSErr.portNotOpen, s) ∧
      read z s = (Except.error DSErr.portNotOpen, s)) := by
  constructor
  · intro hO
    unfold openPort
    rw [hO]
    simp
  · intro hC
    refine ⟨?_, ?_⟩
    · unfold write
      rw [hC]
      simp
    · unfold read
      rw [hC]
      simp

/-- Claim C7 witness: a fresh open port rejects `open()` unchanged; after
`close()`, `write` and `read` fail leaving the closed state unchanged. -/
theorem errors_leave_state_witness :
    openPort (mkSerial "p" [] 2 9600) =
      (Except.error DSErr.alreadyOpen, mkSerial "p" [] 2 9600) ∧
    write (WriteData.bytesD []) (closePort (mkSerial "p" [] 2 9600)) =
      (Except.error DSErr.portNotOpen, closePort (mkSerial "p" [] 2 9600)) ∧
    read 2 (closePort (mkSerial "p" [] 2 9600)) =
      (Except.error DSErr.portNotOpen, closePort (mkSerial "p" [] 2 9600)) :=
  ⟨(errors_leave_state (mkSerial "p" [] 2 9600) (WriteData.bytesD []) 2).1
      rfl,
   ((errors_leave_state (closePort (mkSerial "p" [] 2 9600))
      (WriteData.bytesD []) 2).2 rfl).1,
   ((errors_leave_state (closePort (mkSerial "p" [] 2 9600))
      (WriteData.bytesD []) 2).2 rfl).2⟩

/-- A port with the echo-callable responses of the spec scenario and of the
repository's test_dummy_methods: b"X" maps to the identity function. -/
def echoPort : SerialSt :=
  mkSerial "p" [(Key.kbytes [88], Response.rfunc (fun d => d))] 2 9600

/-- The echo port right after write(b"X"). -/
def echoStaged : SerialSt :=
  (write (WriteData.bytesD [88]) echoPort).2

/-- Claim C2 (code bug): with responses mapping b"X" to the identity
callable, write(b"X") succeeds but stages the callable object itself —
`_check_response` never invokes it — so the subsequent read(1) computes
`len()` of a function and raises TypeError instead of returning b"X" as the
claim (and the repository's own test_dummy_methods) require. -/
theorem callable_staged_not_invoked :
    (write (WriteData.bytesD [88]) echoPort).1 = Except.ok () ∧
    echoStaged.waiting = Pending.func (fun d => d) ∧
    (read ((1 : Nat) : Int) echoStaged).1 = Except.error DSErr.typeError ∧
    (read ((1 : Nat) : Int) echoStaged).1 ≠
      Except.ok (Pending.bytes [88]) := by
  refine ⟨rfl, rfl, rfl, ?_⟩
  intro h
  rw [show (read ((1 : Nat) : Int) echoStaged).1 =
        Except.error DSErr.typeError from rfl] at h
  exact Except.noConfusion h

/-- The scenario port after write(b"PING") and a full drain read(4). -/
def drainedPort : SerialSt :=
  (read ((4 : Nat) : Int) pongStaged).2

/-- Claim C4 counterexample: after a full drain of b"PONG" the pending
output is the sentinel, and the next read(1) returns immediately — the
clock does not advance by the configured timeout (2), contradicting the
claim that a final read after a full drain blocks for timeoutSeconds. -/
theorem no_block_after_drain :
    drainedPort.waiting = Pending.noData ∧
    drainedPort.timeout = 2 ∧
    read ((1 : Nat) : Int) drainedPort =
      (Except.ok Pending.noData, drainedPort) ∧
    (read ((1 : Nat) : Int) drainedPort).2.clock ≠
      drainedPort.clock + drainedPort.timeout := by
  refine ⟨rfl, rfl, rfl, ?_⟩
  decide

/-- Claim C4 (amended): a read requesting more than the length of a
non-sentinel byte pending output blocks for timeoutSeconds (the clock
advances by `timeout`), returns the entire pending output (possibly empty)
and clears the buffer to the sentinel; a read issued after a full drain,
however, finds the sentinel and returns it immediately without blocking. -/
theorem read_oversize_blocks (s : SerialSt) (w : List Nat) (n : Nat)
    (hO : s.isOpen = true) :
    (s.waiting = Pending.bytes w → w.length < n →
      read (n : Int) s =
        (Except.ok (Pending.bytes w),
          { s with waiting := Pending.noData,
                   clock := s.clock + s.timeout })) ∧
    (s.waiting = Pending.noData →
      read (n : Int) s = (Except.ok Pending.noData, s)) :=
  ⟨fun hW h => read_gt s w n hO hW h, fun hW => read_noData s n hO hW⟩

/-- Claim C4 witness: read(5) on pending b"PONG" blocks (clock advances by
the timeout) and returns everything; read(1) on the drained port returns
the sentinel with no delay. -/
theorem read_oversize_blocks_witness :
    read ((5 : Nat) : Int) pongStaged =
      (Except.ok (Pending.bytes [80, 79, 78, 71]),
        { pongStaged with waiting := Pending.noData,
                          clock := pongStaged.clock + pongStaged.timeout }) ∧
    read ((1 : Nat) : Int) drainedPort =
      (Except.ok Pending.noData, drainedPort) :=
  ⟨(read_oversize_blocks pongStaged [80, 79, 78, 71] 5 rfl).1 rfl
      (by decide),
   (read_oversize_blocks drainedPort [] 1 rfl).2 rfl⟩

/-- Claim C5: after a successful write of P1 on an open port and any number
of successful intervening reads, a write of P2 succeeds and leaves the
pending output exactly the response selected for P2 from the original
response table — any unconsumed remainder of P1's response is discarded,
with no queueing across writes. -/
theorem write_overwrites (s s1 s2 : SerialSt) (P1 P2 : WriteData)
    (sizes : List Nat) (outs : List Nat)
    (hO : s.isOpen = true)
    (h1 : write P1 s = (Except.ok (), s1))
    (h2 : readAll sizes s1 = (Except.ok outs, s2)) :
    write P2 s2 =
      (Except.ok (),
        { s2 with
            waiting := checkResponse s.responses (toKey (normalize P2)) }) := by
  have hw : write P1 s =
      (Except.ok (),
        { s with
            waiting := checkResponse s.responses (toKey (normalize P1)) }) := by
    unfold write
    rw [hO]
    simp
  rw [hw] at h1
  have hs1 :
      ({ s with
          waiting := checkResponse s.responses (toKey (normalize P1)) }
        : SerialSt) = s1 :=
    congrArg Prod.snd h1
  subst hs1
  have hfields := readAll_fields sizes
    { s with waiting := checkResponse s.responses (toKey (normalize P1)) }
  rw [h2] at hfields
  have hO2 : s2.isOpen = true := by
    rw [hfields.1]
    exact hO
  have hresp : s2.responses = s.responses := hfields.2
  unfold write
  rw [hO2, hresp]
  simp

/-- Claim C5 witness: write(b"PING"), read(2) (leaving b"NG" unread), then
write(b"PING") again — the remainder is discarded and the full response is
selected anew. -/
theorem write_overwrites_witness :
    write (WriteData.bytesD [80, 73, 78, 71]) (readAll [2] pongStaged).2 =
      (Except.ok (),
        { (readAll [2] pongStaged).2 with
            waiting := checkResponse pingPort.responses
              (toKey (normalize (WriteData.bytesD [80, 73, 78, 71]))) }) :=
  write_overwrites pingPort pongStaged (readAll [2] pongStaged).2
    (WriteData.bytesD [80, 73, 78, 71]) (WriteData.bytesD [80, 73, 78, 71])
    [2] [80, 79] rfl rfl rfl

/-- The scenario port with b"PONG" pending, then closed. -/
def closedPending : SerialSt := closePort pongStaged

/-- Claim C8 counterexample: close() does not clear the pending state —
after write(b"PING") stages b"PONG" and the port is closed, pendingCount()
still returns 4, not 0. -/
theorem close_keeps_pending :
    closedPending.isOpen = false ∧
    inWaiting closedPending = some 4 ∧
    some 4 ≠ some (0 : Nat) :=
  ⟨rfl, rfl, by decide⟩

/-- Claim C8 (amended): pendingCount() is a pure query valid even when the
port is closed, returning the length of the current pending output; close()
leaves the pending output untouched, so after close() it returns whatever
was pending at close time — 0 only when nothing was pending. -/
theorem inWaiting_survives_close (s : SerialSt) :
    inWaiting (closePort s) = inWaiting s ∧
    (closePort s).waiting = s.waiting ∧
    (s.waiting = Pending.noData → inWaiting s = some 0) ∧
    (∀ w, s.waiting = Pending.bytes w → inWaiting s = some w.length) := by
  refine ⟨rfl, rfl, fun h => ?_, fun w h => ?_⟩
  · simp [inWaiting, h]
  · simp [inWaiting, h]

/-- Claim C8 witness: the closed port with b"PONG" pending reports 4. -/
theorem inWaiting_survives_close_witness :
    inWaiting (closePort pongStaged) = inWaiting pongStaged ∧
    inWaiting pongStaged = some 4 :=
  ⟨(inWaiting_survives_close pongStaged).1,
   (inWaiting_survives_close pongStaged).2.2.2 [80, 79, 78, 71] rfl⟩

/-- UTF-8 encoding of a single character: the canonical byte form of text,
used to state the text-payload part of claim C9. -/
def utf8Char (c : Char) : List Nat :=
  let n := c.toNat
  if n < 128 then [n]
  else if n < 2048 then [192 + n / 64, 128 + n % 64]
  else if n < 65536 then
    [224 + n / 4096, 128 + (n / 64) % 64, 128 + n % 64]
  else
    [240 + n / 262144, 128 + (n / 4096) % 64, 128 + (n / 64) % 64,
      128 + n % 64]

/-- UTF-8 encoding of a string. -/
def utf8Bytes (t : String) : List Nat :=
  t.data.flatMap utf8Char

/-- A port mapping the bytes key b"X" to the response b"YZ". -/
def xPort : SerialSt :=
  mkSerial "p" [(Key.kbytes [88], Response.rbytes [89, 90])] 2 9600

/-- Claim C9 counterexample: the text payload "X", whose UTF-8 byte form
equals the configured bytes key b"X", does not select that key's response —
write("X") stages the no-data sentinel, because `write` never encodes text
to bytes; only bytearray is normalized. -/
theorem text_payload_not_encoded :
    utf8Bytes "X" = [88] ∧
    (write (WriteData.strD "X") xPort).1 = Except.ok () ∧
    (write (WriteData.strD "X") xPort).2.waiting = Pending.noData ∧
    Pending.noData ≠ Pending.bytes [89, 90] :=
  ⟨by decide, rfl, rfl, fun h => Pending.noConfusion h⟩

/-- Claim C9 (amended): write normalizes bytearray payloads to bytes before
lookup, so a bytearray equal to a configured bytes key selects that key's
response; text payloads are not encoded to a byte form: they are looked up
as text and match only an equal text key. -/
theorem write_normalizes_bytearray (s : SerialSt) (b : List Nat) (t : String)
    (hO : s.isOpen = true) :
    write (WriteData.byteArr b) s = write (WriteData.bytesD b) s ∧
    (write (WriteData.strD t) s).2.waiting =
      checkResponse s.responses (Key.kstr t) := by
  refine ⟨rfl, ?_⟩
  simp [write, hO, toKey, normalize]

/-- Claim C9 witness: a bytearray b"PING" behaves exactly like bytes b"PING"
on the scenario port, and the text payload "X" is looked up as text. -/
theorem write_normalizes_bytearray_witness :
    write (WriteData.byteArr [80, 73, 78, 71]) pingPort =
      write (WriteData.bytesD [80, 73, 78, 71]) pingPort ∧
    (write (WriteData.strD "X") pingPort).2.waiting =
      checkResponse pingPort.responses (Key.kstr "X") :=
  ⟨(write_normalizes_bytearray pingPort [80, 73, 78, 71] "X" rfl).1,
   (write_normalizes_bytearray pingPort [80, 73, 78, 71] "X" rfl).2⟩

/-- Claim C10: for every port state, the `in_waiting` property returns
exactly the value of the `inWaiting()` method, namely the length of the
current pending output. -/
theorem in_waiting_eq_inWaiting (s : SerialSt) :
    in_waiting s = inWaiting s ∧
    (s.waiting = Pending.noData → in_waiting s = some 0) ∧
    (∀ w, s.waiting = Pending.bytes w → in_waiting s = some w.length) := by
  refine ⟨rfl, fun h => ?_, fun w h => ?_⟩
  · simp [in_waiting, inWaiting, h]
  · simp [in_waiting, inWaiting, h]

/-- Claim C10 witness: on the scenario port with b"PONG" pending the
property and the method agree and report the pending length 4. -/
theorem in_waiting_eq_inWaiting_witness :
    in_waiting pongStaged = inWaiting pongStaged ∧
    in_waiting pongStaged = some 4 :=
  ⟨(in_waiting_eq_inWaiting pongStaged).1,
   (in_waiting_eq_inWaiting pongStaged).2.2 [80, 79, 78, 71] rfl⟩

end DummySerial
